import Mathlib

/-!
Shallow embedding of the element-locator and event-capture logic of the
workflow-use browser extension content script.

Two variants of the script exist in the repository:
* `src/extension/src/entrypoints/content.ts` — the primary variant, embedded
  at top level below;
* `src/unnamed/part_000` — an earlier variant; the parts of it that differ and
  are claim-relevant (its `getXPath` with the "unknown" sentinel) are embedded
  in the `Variant0` namespace.

JS strings become Lean `String`, JS numbers that can be fractional (scroll
coordinates) become `ℚ` with `Math.round` modelled explicitly, DOM elements
become explicit records, and JS exceptions in the handlers' try/catch blocks
are modelled by `Except` parameters carrying the outcome of the guarded
computation.
-/

/-- A DOM attribute: a name/value pair, as iterated by `element.attributes`. -/
structure Attr where
  name : String
  value : String
deriving DecidableEq, Repr

/-- The per-element data read by the locator engine: `element.id`
(`""` when absent, as in the DOM), `element.tagName` (uppercase in real DOM),
`element.classList` and `element.attributes`. -/
structure ElementData where
  id : String
  tagName : String
  classList : List String
  attributes : List Attr
deriving DecidableEq, Repr

/-- A DOM element together with the ancestor context that `getXPath` walks:
`isBody` models `element === document.body`; `precedingTags` lists the
`tagName`s of the element siblings that precede the element in
`element.parentNode.children` (entries of `children` are always elements, so
the source's `nodeType === 1` test is always true for them); `parent` is the
parent element (`none` models a detached element with no `parentNode`, in
which case `element.parentNode?.children` is undefined). -/
inductive XNode : Type where
  | mk (data : ElementData) (isBody : Bool) (precedingTags : List String)
      (parent : Option XNode) : XNode
deriving Repr

/-- The element's own data. -/
def XNode.data : XNode → ElementData
  | .mk d _ _ _ => d

/-- JS `String.prototype.toLowerCase` (the tags and attribute names involved
are ASCII, where `Char.toLower` agrees with it). -/
def toLowerCase (s : String) : String :=
  String.mk (s.toList.map Char.toLower)

/-- JS `String.prototype.toUpperCase` for ASCII strings. -/
def toUpperCase (s : String) : String :=
  String.mk (s.toList.map Char.toUpper)

/-- The loop of `getXPath` (content.ts lines 42-53): it scans
`parentNode.children` until it hits the element itself (`sibling === element`),
incrementing `ix` for every earlier sibling with the same `tagName`.  Its
count over the preceding siblings' tags is: -/
def countSameTag : List String → String → Nat
  | [], _ => 0
  | t :: ts, tag => (if t = tag then 1 else 0) + countSameTag ts tag

/-- `getXPath` from content.ts lines 35-56:
id short-circuit, body base case, then the parent-recursive
`/tagname[k]` step with the same-tag sibling index; a detached element
(no `parentNode`, hence `siblings` undefined) falls back to its bare tag. -/
def getXPath : XNode → String
  | .mk d isBody pre parent =>
    if d.id ≠ "" then "id(\"" ++ d.id ++ "\")"
    else if isBody then toLowerCase d.tagName
    else
      match parent with
      | some p =>
          getXPath p ++ "/" ++ toLowerCase d.tagName ++ "[" ++
            toString (countSameTag pre d.tagName + 1) ++ "]"
      | none => toLowerCase d.tagName

namespace Variant0

/-- The recursion of the earlier variant's `getXPath` on a non-null element
(src/unnamed/part_000 lines 9-22): the same walk as the primary variant's,
but guarded by a falsy-`tagName` check returning the sentinel "unknown", and
with a truthiness (non-empty) id check.  The recursive call
`getXPath(element.parentElement)` applies these same checks to the non-null
parent. -/
def getXPathElem : XNode → String
  | .mk d isBody pre parent =>
    if d.tagName = "" then "unknown"
    else if d.id ≠ "" then "id(\"" ++ d.id ++ "\")"
    else if isBody then toLowerCase d.tagName
    else
      match parent with
      | some p =>
          getXPathElem p ++ "/" ++ toLowerCase d.tagName ++ "[" ++
            toString (countSameTag pre d.tagName + 1) ++ "]"
      | none => toLowerCase d.tagName

/-- `getXPath` from the earlier variant (src/unnamed/part_000 lines 7-23):
the null check (line 8) returns the sentinel, then the element walk. -/
def getXPath : Option XNode → String
  | none => "unknown"
  | some e => getXPathElem e

end Variant0

/-! ## CSS.escape and the enhanced CSS selector (content.ts lines 11-33, 58-87) -/

/-- Lowercase hex digit. -/
def hexChar (n : Nat) : Char :=
  if n < 10 then Char.ofNat (48 + n) else Char.ofNat (87 + n)

/-- Accumulator loop for lowercase hexadecimal notation. -/
def hexStringAux (n : Nat) (acc : List Char) : List Char :=
  if n = 0 then acc
  else hexStringAux (n / 16) (hexChar (n % 16) :: acc)
decreasing_by exact Nat.div_lt_self (Nat.pos_of_ne_zero (by assumption)) (by decide)

/-- Lowercase hexadecimal notation of a code point, as used by the CSS
escaping serialization. -/
def hexOfNat (n : Nat) : String :=
  if n = 0 then "0" else String.mk (hexStringAux n [])

/-- One character of the CSS.escape (CSSOM "serialize an identifier")
algorithm: `c` at 0-based index `i` of a string of length `len` whose first
character is `first`. -/
def cssEscapeChar (c : Char) (i : Nat) (first : Char) (len : Nat) : String :=
  let n := c.toNat
  if n = 0 then "�"
  else if (1 ≤ n ∧ n ≤ 31) ∨ n = 127 then "\\" ++ hexOfNat n ++ " "
  else if i = 0 ∧ c.isDigit then "\\" ++ hexOfNat n ++ " "
  else if i = 1 ∧ c.isDigit ∧ first = '-' then "\\" ++ hexOfNat n ++ " "
  else if i = 0 ∧ c = '-' ∧ len = 1 then "\\-"
  else if n ≥ 128 ∨ c = '-' ∨ c = '_' ∨ c.isDigit ∨
          (65 ≤ n ∧ n ≤ 90) ∨ (97 ≤ n ∧ n ≤ 122) then String.singleton c
  else "\\" ++ String.singleton c

/-- `CSS.escape`, per the CSSOM serialize-an-identifier algorithm. -/
def cssEscape (s : String) : String :=
  let cs := s.toList
  String.join (cs.enum.map (fun p => cssEscapeChar p.2 p.1 (cs.headD (Char.ofNat 0)) cs.length))

/-- The attribute allow-list `SAFE_ATTRIBUTES` (content.ts lines 11-33). -/
def SAFE_ATTRIBUTES : List String :=
  ["id", "name", "type", "placeholder", "aria-label", "aria-labelledby",
   "aria-describedby", "role", "for", "autocomplete", "required", "readonly",
   "alt", "title", "src", "href", "target", "data-id", "data-qa", "data-cy",
   "data-testid"]

/-- The regex `/^[a-zA-Z_][a-zA-Z0-9_-]*$/` (content.ts line 61), applied by
`.test` to a whole class name (the regex is anchored at both ends). -/
def validClassPattern (s : String) : Bool :=
  match s.toList with
  | [] => false
  | c :: rest =>
      (c.isAlpha || c = '_') &&
        rest.all (fun d => d.isAlpha || d.isDigit || d = '_' || d = '-')

/-- Whitespace characters matched by the JavaScript regex class `\s`
(space, tab, line feed, vertical tab, form feed, carriage return, and the
Unicode space/NBSP/BOM characters; only the ASCII ones matter here). -/
def jsWhitespaceChar (c : Char) : Bool :=
  c = ' ' || c = '\t' || c = '\n' || c = '\x0b' || c = '\x0c' || c = '\r' ||
    c = '\xa0' || c.toNat = 0x1680 || (0x2000 ≤ c.toNat && c.toNat ≤ 0x200a) ||
    c.toNat = 0x2028 || c.toNat = 0x2029 || c.toNat = 0x202f ||
    c.toNat = 0x205f || c.toNat = 0x3000 || c.toNat = 0xfeff

/-- JS `String.prototype.trim`: strip the JS whitespace characters from both
ends. -/
def jsTrim (s : String) : String :=
  String.mk (((s.toList.dropWhile jsWhitespaceChar).reverse.dropWhile
    jsWhitespaceChar).reverse)

/-- A global single-character-regex replace, `s.replace(/c/g, rep)`: every
occurrence of the character `c` becomes the string `rep`. -/
def replaceEachChar (s : String) (c : Char) (rep : String) : String :=
  String.join (s.toList.map (fun d => if d = c then rep else String.singleton d))

/-- One character of the class matched by the regex `/['"<>`\s]/`
(content.ts line 79); `Char.ofNat 96` is the backquote. -/
def unsafeValueChar (c : Char) : Bool :=
  c = '\'' || c = '"' || c = '<' || c = '>' || c = Char.ofNat 96 ||
    jsWhitespaceChar c

/-- `/['"<>`\s]/.test attrValue`: some character of the value is in the class. -/
def hasUnsafeValueChar (s : String) : Bool :=
  s.toList.any unsafeValueChar

/-- One iteration of the attribute loop of `getEnhancedCSSSelector`
(content.ts lines 68-85), acting on the selector accumulated so far.  The
three `continue` guards return `acc` unchanged.  Note that the source's
`attrValue.replace(/"/g, '\"')` replaces every quote with the JS string
literal `'\"'`, which denotes just a quote — the replacement is the identity
on the value. -/
def attrStep (acc : String) (attr : Attr) : String :=
  if attr.name = "class" then acc
  else if jsTrim attr.name = "" then acc
  else if ¬ SAFE_ATTRIBUTES.contains attr.name then acc
  else
    let safeAttribute := cssEscape attr.name
    if attr.value = "" then acc ++ "[" ++ safeAttribute ++ "]"
    else
      let safeValue := replaceEachChar attr.value '\"' "\""
      if hasUnsafeValueChar attr.value then
        acc ++ "[" ++ safeAttribute ++ "*=\"" ++ safeValue ++ "\"]"
      else
        acc ++ "[" ++ safeAttribute ++ "=\"" ++ safeValue ++ "\"]"

/-- `getEnhancedCSSSelector` from content.ts lines 58-87: the lowercase tag,
one `.class` fragment per truthy class name passing `validClassPattern`
(the `classList.length > 0` guard is subsumed: an empty list contributes
nothing), then the attribute loop.  The `xpath` argument is unused, as in the
source. -/
def getEnhancedCSSSelector (element : ElementData) (xpath : String) : String :=
  let withClasses := element.classList.foldl
    (fun acc className =>
      if className ≠ "" && validClassPattern className then
        acc ++ "." ++ cssEscape className
      else acc)
    (toLowerCase element.tagName)
  element.attributes.foldl attrStep withClasses

/-! ## Capture handlers (content.ts lines 186-313)

Each handler is embedded twice over: a `...Try` form in which the outcome of
the locator computation guarded by the source's `try { ... } catch` is an
explicit `Except` argument (`.error` models a thrown exception), and a plain
form that instantiates that argument with the successful run of the embedded
locator functions.  `chrome.runtime.sendMessage` is fire-and-forget; a
handler's outgoing message is its `Option` result (`none` = no message). -/

/-- An element locator pair as computed inside the handlers. -/
structure Locator where
  xpath : String
  cssSelector : String
deriving DecidableEq, Repr

/-- Payload of a CUSTOM_CLICK_EVENT message (content.ts lines 192-200). -/
structure ClickPayload where
  timestamp : Nat
  url : String
  frameUrl : String
  xpath : String
  cssSelector : String
  elementTag : String
  elementText : String
deriving DecidableEq, Repr

/-- The click target resolved from `event.composedPath()[0]`. -/
structure ClickTarget where
  node : XNode
  textContent : String
deriving Repr

/-- `handleCustomClick` (content.ts lines 186-206) with the outcome of the
`try`-guarded locator computation abstracted: an exception (`.error`) is
swallowed by the `catch` and no message is sent. -/
def handleCustomClickTry (active : Bool) (now : Nat) (url frameUrl : String)
    (target : Option ClickTarget) (loc : Except Unit Locator) :
    Option ClickPayload :=
  if ¬ active then none
  else
    match target with
    | none => none
    | some t =>
      match loc with
      | .error _ => none
      | .ok l =>
          some { timestamp := now, url := url, frameUrl := frameUrl,
                 xpath := l.xpath, cssSelector := l.cssSelector,
                 elementTag := t.node.data.tagName,
                 elementText := (jsTrim t.textContent).take 200 }

/-- `handleCustomClick` on a run where the locator computation returns
normally, with the locators computed by the embedded pure functions. -/
def handleCustomClick (active : Bool) (now : Nat) (url frameUrl : String)
    (target : Option ClickTarget) : Option ClickPayload :=
  handleCustomClickTry active now url frameUrl target
    (match target with
     | some t => .ok ⟨getXPath t.node, getEnhancedCSSSelector t.node.data (getXPath t.node)⟩
     | none => .ok ⟨"", ""⟩)

/-- Payload of a CUSTOM_INPUT_EVENT message (content.ts lines 215-223). -/
structure InputPayload where
  timestamp : Nat
  url : String
  frameUrl : String
  xpath : String
  cssSelector : String
  elementTag : String
  value : String
deriving DecidableEq, Repr

/-- The input target resolved from `event.composedPath()[0]`: `hasValue`
models `"value" in targetElement`, `type` the live `type` property and
`value` the live `value` property (neither is an entry of
`node.data.attributes`, which holds the HTML attributes the selector reads). -/
structure InputTarget where
  node : XNode
  hasValue : Bool
  type : String
  value : String
deriving Repr

/-- `handleInput` (content.ts lines 208-229) with the `try`-guarded locator
outcome abstracted. -/
def handleInputTry (active : Bool) (now : Nat) (url frameUrl : String)
    (target : Option InputTarget) (loc : Except Unit Locator) :
    Option InputPayload :=
  if ¬ active then none
  else
    match target with
    | none => none
    | some t =>
      if ¬ t.hasValue then none
      else
        let isPassword := t.type = "password"
        match loc with
        | .error _ => none
        | .ok l =>
            some { timestamp := now, url := url, frameUrl := frameUrl,
                   xpath := l.xpath, cssSelector := l.cssSelector,
                   elementTag := t.node.data.tagName,
                   value := if isPassword then "********" else t.value }

/-- `handleInput` on a run where the locator computation returns normally. -/
def handleInput (active : Bool) (now : Nat) (url frameUrl : String)
    (target : Option InputTarget) : Option InputPayload :=
  handleInputTry active now url frameUrl target
    (match target with
     | some t => .ok ⟨getXPath t.node, getEnhancedCSSSelector t.node.data (getXPath t.node)⟩
     | none => .ok ⟨"", ""⟩)

/-- Payload of a CUSTOM_SELECT_EVENT message (content.ts lines 238-247). -/
structure SelectPayload where
  timestamp : Nat
  url : String
  frameUrl : String
  xpath : String
  cssSelector : String
  elementTag : String
  selectedValue : String
  selectedText : String
deriving DecidableEq, Repr

/-- The change target: `selectedOption` is
`targetElement.options[targetElement.selectedIndex]`'s display text when that
entry exists. -/
structure SelectTarget where
  node : XNode
  value : String
  selectedOption : Option String
deriving Repr

/-- `handleSelectChange` (content.ts lines 231-253) with the `try`-guarded
locator outcome abstracted. -/
def handleSelectChangeTry (active : Bool) (now : Nat) (url frameUrl : String)
    (target : Option SelectTarget) (loc : Except Unit Locator) :
    Option SelectPayload :=
  if ¬ active then none
  else
    match target with
    | none => none
    | some t =>
      if t.node.data.tagName ≠ "SELECT" then none
      else
        match loc with
        | .error _ => none
        | .ok l =>
            some { timestamp := now, url := url, frameUrl := frameUrl,
                   xpath := l.xpath, cssSelector := l.cssSelector,
                   elementTag := t.node.data.tagName,
                   selectedValue := t.value,
                   selectedText := t.selectedOption.getD "" }

/-- `handleSelectChange` on a run where the locator computation returns
normally. -/
def handleSelectChange (active : Bool) (now : Nat) (url frameUrl : String)
    (target : Option SelectTarget) : Option SelectPayload :=
  handleSelectChangeTry active now url frameUrl target
    (match target with
     | some t => .ok ⟨getXPath t.node, getEnhancedCSSSelector t.node.data (getXPath t.node)⟩
     | none => .ok ⟨"", ""⟩)

/-- The key set `CAPTURED_KEYS` (content.ts lines 255-269). -/
def CAPTURED_KEYS : List String :=
  ["Enter", "Tab", "Escape", "ArrowUp", "ArrowDown", "ArrowLeft", "ArrowRight",
   "Home", "End", "PageUp", "PageDown", "Backspace", "Delete"]

/-- `/[a-zA-Z0-9]/.test key`: some character of the key is ASCII
alphanumeric. -/
def containsAlphanum (s : String) : Bool :=
  s.toList.any (fun c => c.isAlpha || c.isDigit)

/-- The fields of a `keydown` event that `handleKeydown` reads. -/
structure KeyEvent where
  key : String
  ctrlKey : Bool
  metaKey : Bool
deriving DecidableEq, Repr

/-- Payload of a CUSTOM_KEY_EVENT message (content.ts lines 293-301). -/
structure KeyPayload where
  timestamp : Nat
  url : String
  frameUrl : String
  key : String
  xpath : String
  cssSelector : String
  elementTag : String
deriving DecidableEq, Repr

/-- `handleKeydown` (content.ts lines 271-308) with the two `try`-guarded
locator steps abstracted: `target = none` models a missing composed-path head
or one whose `tagName` is not a string; `locX` / `locC` are the outcomes of
`getXPath` and `getEnhancedCSSSelector` inside the inner `try`, whose `catch`
leaves whichever of `xpath` / `cssSelector` / `elementTag` was not yet
assigned at its default (`""` / `""` / `"document"`). -/
def handleKeydownTry (active : Bool) (now : Nat) (url frameUrl : String)
    (ev : KeyEvent) (target : Option XNode)
    (locX locC : Except Unit String) : Option KeyPayload :=
  if ¬ active then none
  else
    let keyToLog :=
      if CAPTURED_KEYS.contains ev.key then ev.key
      else if (ev.ctrlKey || ev.metaKey) && ev.key.length = 1 &&
              containsAlphanum ev.key then
        "CmdOrCtrl+" ++ toUpperCase ev.key
      else ""
    if keyToLog = "" then none
    else
      let (xpath, cssSelector, elementTag) :=
        match target with
        | none => ("", "", "document")
        | some n =>
          match locX, locC with
          | .error _, _ => ("", "", "document")
          | .ok xp, .error _ => (xp, "", "document")
          | .ok xp, .ok cs => (xp, cs, n.data.tagName)
      some { timestamp := now, url := url, frameUrl := frameUrl,
             key := keyToLog, xpath := xpath, cssSelector := cssSelector,
             elementTag := elementTag }

/-- `handleKeydown` on a run where the locator computation returns normally. -/
def handleKeydown (active : Bool) (now : Nat) (url frameUrl : String)
    (ev : KeyEvent) (target : Option XNode) : Option KeyPayload :=
  handleKeydownTry active now url frameUrl ev target
    (.ok ((target.map getXPath).getD ""))
    (.ok ((target.map (fun n => getEnhancedCSSSelector n.data (getXPath n))).getD ""))

/-! ## Recorder lifecycle and scroll-event smoothing (content.ts lines 4-9,
118-184, 315-342)

The module-level mutable state of content.ts and the rrweb engine's
recording status form `RecState`; the emit callback, the debounce timer
callback, `startRecorder` / `stopRecorder` and the message listeners become
steps of a small transition system, and the outgoing `RRWEB_EVENT` messages
of a step are collected in a list. -/

/-- Scroll direction, as in `"up" | "down"`. -/
inductive Dir : Type where
  | up
  | down
deriving DecidableEq, Repr

/-- An rrweb event as seen by the emit callback: either an incremental
scroll snapshot (with possibly fractional coordinates) or any other event,
kept opaque. -/
inductive RREvent : Type where
  | scroll (id : Nat) (x y : ℚ)
  | other (payload : Nat)
deriving DecidableEq, Repr

/-- An outgoing RRWEB_EVENT message: the raw event for non-scroll events, or
a scroll event whose data was replaced by the rounded coordinates. -/
inductive Msg : Type where
  | rrweb (ev : RREvent)
  | rrwebScroll (id : Nat) (x y : ℤ)
deriving DecidableEq, Repr

/-- The module-level state: `stopRecording` (whether the `stopRecording`
handle is set), `isRecordingActive`, `scrollTimeout` (the pending debounce
timer, holding the message its callback will send — the closure over `event`
and `roundedScrollData`), `lastScrollY`, `lastDirection`; `engineRecording`
tracks whether the rrweb engine started by `rrweb.record` is currently
recording. -/
structure RecState where
  stopRecording : Bool
  isRecordingActive : Bool
  scrollTimeout : Option Msg
  lastScrollY : Option ℚ
  lastDirection : Option Dir
  engineRecording : Bool
deriving DecidableEq, Repr

/-- The state at module load (content.ts lines 4-8): no stop handle, but
`isRecordingActive` initialized to `true`. -/
def initState : RecState :=
  { stopRecording := false, isRecordingActive := true, scrollTimeout := none,
    lastScrollY := none, lastDirection := none, engineRecording := false }

/-- `Math.round`: round half toward positive infinity. -/
def jsRound (q : ℚ) : ℤ :=
  ⌊q + 1 / 2⌋

/-- The emit callback (content.ts lines 124-166): returns the next state and
the messages sent during the invocation. -/
def emitStep (s : RecState) (e : RREvent) : RecState × List Msg :=
  if ¬ s.isRecordingActive then (s, [])
  else
    match e with
    | .other p => (s, [.rrweb (.other p)])
    | .scroll i x y =>
      let rounded : Msg := .rrwebScroll i (jsRound x) (jsRound y)
      let currentDirection : Option Dir :=
        match s.lastScrollY with
        | none => none
        | some ly => some (if y > ly then .down else .up)
      let reversal : Bool :=
        match s.lastDirection, currentDirection with
        | some ld, some cd => cd != ld
        | _, _ => false
      if reversal then
        ({ s with scrollTimeout := none, lastDirection := currentDirection,
                  lastScrollY := some y }, [rounded])
      else
        ({ s with lastDirection := currentDirection, lastScrollY := some y,
                  scrollTimeout := some rounded }, [])

/-- The debounce timer callback firing (content.ts lines 155-162): only a
pending timer can fire; it sends the buffered message, clears the timer and
resets `lastDirection` — without consulting `isRecordingActive`. -/
def timerFire (s : RecState) : RecState × List Msg :=
  match s.scrollTimeout with
  | none => (s, [])
  | some m => ({ s with scrollTimeout := none, lastDirection := none }, [m])

/-- `startRecorder` (content.ts lines 118-176): a no-op when the stop handle
is set; otherwise sets the active flag, starts the engine and stores its stop
handle. -/
def startRecorder (s : RecState) : RecState :=
  if s.stopRecording then s
  else { s with isRecordingActive := true, stopRecording := true,
                engineRecording := true }

/-- `stopRecorder` (content.ts lines 178-184): when the stop handle is set,
calls it (stopping the engine), clears it and clears the active flag; the
pending scroll timer is left as it is. -/
def stopRecorder (s : RecState) : RecState :=
  if s.stopRecording then
    { s with engineRecording := false, stopRecording := false,
             isRecordingActive := false }
  else s

/-- The SET_RECORDING_STATUS message listener (content.ts lines 318-327). -/
def setRecordingStatus (s : RecState) (shouldBeRecording : Bool) : RecState :=
  if shouldBeRecording && ¬ s.isRecordingActive then startRecorder s
  else if ¬ shouldBeRecording && s.isRecordingActive then stopRecorder s
  else s

/-- The REQUEST_RECORDING_STATUS response callback (content.ts lines
328-337): `enabled` is the truth of `response && response.isRecordingEnabled`. -/
def statusResponse (s : RecState) (enabled : Bool) : RecState :=
  if enabled then startRecorder s else stopRecorder s

/-- The externally triggered steps of the lifecycle. -/
inductive RecAction : Type where
  | emit (e : RREvent)
  | timer
  | start
  | stop
  | setStatus (b : Bool)
  | statusResp (b : Bool)
  | unload
deriving DecidableEq, Repr

/-- One step: which transition each action performs, and the messages it
sends. -/
def step (s : RecState) (a : RecAction) : RecState × List Msg :=
  match a with
  | .emit e => emitStep s e
  | .timer => timerFire s
  | .start => (startRecorder s, [])
  | .stop => (stopRecorder s, [])
  | .setStatus b => (setRecordingStatus s b, [])
  | .statusResp b => (statusResponse s b, [])
  | .unload => (stopRecorder s, [])

/-- Run a sequence of actions, collecting all outgoing messages. -/
def run (s : RecState) : List RecAction → RecState × List Msg
  | [] => (s, [])
  | a :: as =>
      let sm := step s a
      let rest := run sm.1 as
      (rest.1, sm.2 ++ rest.2)

/-- The RecordingSession invariant of the specification: the stop handle is
present exactly when the replay engine is recording, and `isRecordingActive`
agrees with the stop handle. -/
def sessionInvariant (s : RecState) : Prop :=
  s.stopRecording = s.engineRecording ∧ s.isRecordingActive = s.stopRecording

instance (s : RecState) : Decidable (sessionInvariant s) := by
  unfold sessionInvariant; infer_instance

/-! ## Helper lemmas -/

/-- The source's loop count of preceding same-tag siblings is the number of
occurrences of the tag among the preceding siblings. -/
theorem countSameTag_eq_count (l : List String) (t : String) :
    countSameTag l t = l.count t := by
  induction l with
  | nil => rfl
  | cons a as ih =>
      by_cases h : a = t <;>
        simp [countSameTag, List.count_cons, ih, h, Nat.add_comm]

/-- A fold that skips elements failing `P` is the fold over the filtered
list. -/
theorem foldl_filter {α : Type} (P : α → Bool) (g : String → α → String)
    (l : List α) (b : String) :
    l.foldl (fun acc c => if P c then g acc c else acc) b =
      (l.filter P).foldl g b := by
  induction l generalizing b with
  | nil => rfl
  | cons a as ih =>
      by_cases h : P a <;> simp [List.filter_cons, h, ih]

/-- An attribute whose name is outside the allow-list contributes nothing to
the selector. -/
theorem attrStep_not_safe (acc : String) (a : Attr)
    (h : SAFE_ATTRIBUTES.contains a.name = false) : attrStep acc a = acc := by
  unfold attrStep
  split
  · rfl
  · split
    · rfl
    · split
      · rfl
      · rename_i h3
        exact absurd h3 (by simpa using h)

/-- Every member of the captured-key set is a non-empty string. -/
theorem captured_key_ne_empty (k : String) (h : k ∈ CAPTURED_KEYS) :
    k ≠ "" := by
  fin_cases h <;> decide

/-- A normalized key string is never empty. -/
theorem cmdOrCtrl_ne_empty (s : String) : ("CmdOrCtrl+" ++ s) ≠ "" := by
  intro h
  have hl := congrArg String.length h
  simp [String.length_append] at hl
  exact absurd hl.1 (by decide)

/-! ## The claims -/

/-- The document body as `getXPath` sees it. -/
def bodyNode : XNode := .mk ⟨"", "BODY", [], []⟩ true [] none

/-- The third of three sibling `div` elements with no ids, child of the
body. -/
def thirdDiv : XNode := .mk ⟨"", "DIV", [], []⟩ false ["DIV", "DIV"] (some bodyNode)

/-- C1: the claim asserts that the emitted attribute fragment never contains
an unescaped quote that breaks selector syntax.  The code contradicts this:
for the allow-listed attribute `data-testid='a"b'` the substring-match branch
is taken, but `attrValue.replace(/"/g, '\"')` is the identity (the JS string
literal `'\"'` denotes a plain quote), so the fragment keeps the raw inner
quote, and its three unbalanced quotes break the selector string.  The
intent of the `safeValue` rewrite is clearly escaping; the replacement string
is a slip, so this is a bug in the code rather than in the claim. -/
theorem C1_unescaped_quote_bug :
    attrStep "" ⟨"data-testid", "a\"b"⟩ = "[data-testid*=\"a\"b\"]" ∧
    ((attrStep "" ⟨"data-testid", "a\"b"⟩).toList.filter
        (fun c => c = '"')).length = 3 := by
  constructor <;> decide

/-- C2: for an element with no non-empty id, not the body, with a parent,
`getXPath` is the parent's XPath plus `/tagname[k]` with `k` the count of
preceding same-tag element siblings plus one; in particular the third of
three sibling ids-less `div`s gets a path ending in `div[3]`. -/
theorem C2_sibling_index (d : ElementData) (isBody : Bool)
    (pre : List String) (p : XNode) (hid : d.id = "") (hb : isBody = false) :
    getXPath (.mk d isBody pre (some p)) =
      getXPath p ++ "/" ++ toLowerCase d.tagName ++ "[" ++
        toString (pre.count d.tagName + 1) ++ "]" ∧
    getXPath thirdDiv = "body/" ++ "div[3]" := by
  constructor
  · simp [getXPath, hid, hb, countSameTag_eq_count]
  · decide

/-- Witness for C2 at the concrete three-`div` chain. -/
theorem C2_sibling_index_witness :
    getXPath (.mk ⟨"", "DIV", [], []⟩ false ["DIV", "DIV"] (some bodyNode)) =
      getXPath bodyNode ++ "/" ++ toLowerCase "DIV" ++ "[" ++
        toString ((["DIV", "DIV"] : List String).count "DIV" + 1) ++ "]" ∧
    getXPath thirdDiv = "body/" ++ "div[3]" :=
  C2_sibling_index ⟨"", "DIV", [], []⟩ false ["DIV", "DIV"] bodyNode rfl rfl


/-- C3: the selector is the lowercase tag, then exactly one `.class` fragment
per truthy class passing the safe identifier pattern (failing classes are
skipped), then the attribute loop — and an attribute outside the allow-list
contributes nothing; in particular class `"btn primary"` with
`onclick="alert(1)"` yields `div.btn.primary`, with no `onclick` fragment. -/
theorem C3_class_and_allowlist :
    (∀ (e : ElementData) (xp : String),
      getEnhancedCSSSelector e xp =
        e.attributes.foldl attrStep
          ((e.classList.filter
              (fun c => c ≠ "" && validClassPattern c)).foldl
            (fun acc c => acc ++ "." ++ cssEscape c)
            (toLowerCase e.tagName))) ∧
    (∀ (acc : String) (a : Attr), SAFE_ATTRIBUTES.contains a.name = false →
      attrStep acc a = acc) ∧
    getEnhancedCSSSelector
        ⟨"", "DIV", ["btn", "primary"], [⟨"onclick", "alert(1)"⟩]⟩ "" =
      "div.btn.primary" := by
  refine ⟨?_, attrStep_not_safe, by decide⟩
  intro e xp
  simp only [getEnhancedCSSSelector, foldl_filter]

/-- Witness for C3: the allow-list conjunct at the `onclick` attribute, and
the characterization at the example element. -/
theorem C3_class_and_allowlist_witness :
    attrStep "div.btn.primary" ⟨"onclick", "alert(1)"⟩ = "div.btn.primary" ∧
    getEnhancedCSSSelector
        ⟨"", "DIV", ["btn", "primary"], [⟨"onclick", "alert(1)"⟩]⟩ "" =
      "div.btn.primary" :=
  ⟨C3_class_and_allowlist.2.1 "div.btn.primary" ⟨"onclick", "alert(1)"⟩
      (by decide),
   C3_class_and_allowlist.2.2⟩

/-- C4 counterexample: the claim includes whitespace-only tag data among the
degenerate cases that must yield "unknown", but the variant's guard
`!element.tagName` only catches the empty string: an element whose `tagName`
is a single space is passed through, and the whitespace tag itself is
returned. -/
theorem C4_whitespace_counterexample :
    Variant0.getXPath (some (.mk ⟨"", " ", [], []⟩ false [] none)) = " " ∧
    (" " : String) ≠ "unknown" := by
  constructor <;> decide

/-- C4 amended: locator derivation is total, and the "unknown" sentinel is
returned for a missing element or an element with empty tag data; an element
with whitespace-only tag data is not detected as degenerate (the whitespace
tag name itself is returned instead). -/
theorem C4_unknown_sentinel :
    Variant0.getXPath none = "unknown" ∧
    (∀ (d : ElementData) (isBody : Bool) (pre : List String)
        (parent : Option XNode), d.tagName = "" →
      Variant0.getXPath (some (.mk d isBody pre parent)) = "unknown") := by
  refine ⟨rfl, ?_⟩
  intro d isBody pre parent h
  rw [Variant0.getXPath, Variant0.getXPathElem.eq_def]
  simp [h]

/-- Witness for C4 at a missing element and at an empty-tag element. -/
theorem C4_unknown_sentinel_witness :
    Variant0.getXPath none = "unknown" ∧
    Variant0.getXPath (some (.mk ⟨"x", "", [], []⟩ false [] none)) =
      "unknown" :=
  ⟨C4_unknown_sentinel.1,
   C4_unknown_sentinel.2 ⟨"x", "", [], []⟩ false [] none rfl⟩

/-- C5: while recording is active, a key in the captured set is logged
verbatim in a CUSTOM_KEY_EVENT; Ctrl/Meta plus a single alphanumeric key is
logged as `CmdOrCtrl+<UPPER>`; every other key sends no message. -/
theorem C5_keydown_policy (now : Nat) (url furl : String) (ev : KeyEvent)
    (target : Option XNode) :
    (ev.key ∈ CAPTURED_KEYS →
      ∃ p, handleKeydown true now url furl ev target = some p ∧
        p.key = ev.key) ∧
    (ev.key ∉ CAPTURED_KEYS →
      (ev.ctrlKey = true ∨ ev.metaKey = true) → ev.key.length = 1 →
      containsAlphanum ev.key = true →
      ∃ p, handleKeydown true now url furl ev target = some p ∧
        p.key = "CmdOrCtrl+" ++ toUpperCase ev.key) ∧
    (ev.key ∉ CAPTURED_KEYS →
      ¬(((ev.ctrlKey = true ∨ ev.metaKey = true) ∧ ev.key.length = 1) ∧
          containsAlphanum ev.key = true) →
      handleKeydown true now url furl ev target = none) := by
  refine ⟨?_, ?_, ?_⟩
  · intro h1
    have hne : ev.key ≠ "" := captured_key_ne_empty ev.key h1
    cases target <;> simp [handleKeydown, handleKeydownTry, h1, hne]
  · intro h1 hcm hlen han
    have hcond : ((ev.ctrlKey = true ∨ ev.metaKey = true) ∧
        ev.key.length = 1) ∧ containsAlphanum ev.key = true :=
      ⟨⟨hcm, hlen⟩, han⟩
    have hne := cmdOrCtrl_ne_empty (toUpperCase ev.key)
    cases target <;> simp [handleKeydown, handleKeydownTry, h1, hcond, hne]
  · intro h1 hcond
    cases target <;> simp [handleKeydown, handleKeydownTry, h1, hcond]

/-- Witness for C5: `Enter` is logged verbatim, `Ctrl+a` is logged as
`CmdOrCtrl+A`, and a bare `g` sends nothing. -/
theorem C5_keydown_policy_witness :
    (∃ p, handleKeydown true 0 "u" "f" ⟨"Enter", false, false⟩ none = some p ∧
      p.key = "Enter") ∧
    (∃ p, handleKeydown true 0 "u" "f" ⟨"a", true, false⟩ none = some p ∧
      p.key = "CmdOrCtrl+" ++ toUpperCase "a") ∧
    handleKeydown true 0 "u" "f" ⟨"g", false, false⟩ none = none :=
  ⟨(C5_keydown_policy 0 "u" "f" ⟨"Enter", false, false⟩ none).1 (by decide),
   (C5_keydown_policy 0 "u" "f" ⟨"a", true, false⟩ none).2.1 (by decide)
     (Or.inl rfl) (by decide) (by decide),
   (C5_keydown_policy 0 "u" "f" ⟨"g", false, false⟩ none).2.2 (by decide)
     (by decide)⟩

/-- An input target backing a password field. -/
def pwTarget : InputTarget :=
  { node := .mk ⟨"", "INPUT", [], [⟨"type", "password"⟩]⟩ false [] none,
    hasValue := true, type := "password", value := "hunter2" }

/-- C6: on a password-typed field, the CUSTOM_INPUT_EVENT payload carries the
fixed 8-asterisk mask, and two runs that differ only in the field's actual
contents produce identical payloads — the keystrokes never flow into the
output. -/
theorem C6_password_mask (active : Bool) (now : Nat) (url furl : String)
    (t : InputTarget) (v1 v2 : String) (hpw : t.type = "password") :
    handleInput active now url furl (some { t with value := v1 }) =
      handleInput active now url furl (some { t with value := v2 }) ∧
    (t.hasValue = true →
      handleInput true now url furl (some t) =
        some { timestamp := now, url := url, frameUrl := furl,
               xpath := getXPath t.node,
               cssSelector := getEnhancedCSSSelector t.node.data
                 (getXPath t.node),
               elementTag := t.node.data.tagName, value := "********" }) := by
  constructor
  · simp [handleInput, handleInputTry, hpw]
  · intro hv
    simp [handleInput, handleInputTry, hpw, hv]

/-- Witness for C6 at a concrete password field with two different secret
values. -/
theorem C6_password_mask_witness :
    handleInput true 0 "u" "f" (some { pwTarget with value := "hunter2" }) =
      handleInput true 0 "u" "f" (some { pwTarget with value := "s3cret!" }) ∧
    handleInput true 0 "u" "f" (some pwTarget) =
      some { timestamp := 0, url := "u", frameUrl := "f",
             xpath := getXPath pwTarget.node,
             cssSelector := getEnhancedCSSSelector pwTarget.node.data
               (getXPath pwTarget.node),
             elementTag := pwTarget.node.data.tagName, value := "********" } :=
  ⟨(C6_password_mask true 0 "u" "f" pwTarget "hunter2" "s3cret!" rfl).1,
   (C6_password_mask true 0 "u" "f" pwTarget "hunter2" "s3cret!" rfl).2 rfl⟩

/-- `Math.round` of small integer-valued coordinates. -/
theorem jsRound_vals :
    jsRound 0 = 0 ∧ jsRound 10 = 10 ∧ jsRound 15 = 15 ∧ jsRound 20 = 20 := by
  refine ⟨?_, ?_, ?_, ?_⟩ <;> norm_num [jsRound]

/-- C7 counterexample: scrolls arm the debounce timer, `stopRecorder` clears
the active flag (and does not cancel the timer), and the timer callback then
still sends the buffered RRWEB_EVENT — an outgoing message produced after
stop completed, contradicting the claim. -/
theorem C7_pending_timer_counterexample :
    ((run initState [.start, .emit (.scroll 1 0 10), .emit (.scroll 1 0 20),
        .stop]).1.isRecordingActive = false) ∧
    (step (run initState [.start, .emit (.scroll 1 0 10),
        .emit (.scroll 1 0 20), .stop]).1 .timer).2 = [.rrwebScroll 1 0 20] := by
  have h := jsRound_vals
  norm_num [run, step, emitStep, timerFire, startRecorder, stopRecorder,
    initState, h.1, h.2.1, h.2.2.2]

/-- C7 amended: once the active flag is false, every capture handler and
every new emit-callback invocation produces no message, and `stopRecorder`
clears the flag synchronously when a recording is in progress; however, a
scroll debounce timer pending at the moment of stop is not cancelled and its
callback does not re-check the flag, so it still fires and emits the
buffered scroll event. -/
theorem C7_stop_suppression :
    (∀ (s : RecState) (e : RREvent), s.isRecordingActive = false →
      emitStep s e = (s, [])) ∧
    (∀ now url furl target,
      handleCustomClick false now url furl target = none) ∧
    (∀ now url furl target, handleInput false now url furl target = none) ∧
    (∀ now url furl target,
      handleSelectChange false now url furl target = none) ∧
    (∀ now url furl ev target,
      handleKeydown false now url furl ev target = none) ∧
    (∀ s : RecState, s.stopRecording = true →
      (stopRecorder s).isRecordingActive = false) ∧
    (∀ (s : RecState) (m : Msg), s.isRecordingActive = false →
      s.scrollTimeout = some m → (timerFire s).2 = [m]) := by
  refine ⟨?_, ?_, ?_, ?_, ?_, ?_, ?_⟩
  · intro s e h; simp [emitStep, h]
  · intro now url furl target
    simp [handleCustomClick, handleCustomClickTry]
  · intro now url furl target; simp [handleInput, handleInputTry]
  · intro now url furl target
    simp [handleSelectChange, handleSelectChangeTry]
  · intro now url furl ev target; simp [handleKeydown, handleKeydownTry]
  · intro s h; simp [stopRecorder, h]
  · intro s m _ ht; simp [timerFire, ht]

/-- Witness for C7 at concrete inactive states: a suppressed emit, suppressed
handlers, a synchronous flag clear, and a pending timer that still fires. -/
theorem C7_stop_suppression_witness :
    emitStep { initState with isRecordingActive := false } (.other 5) =
      ({ initState with isRecordingActive := false }, []) ∧
    handleCustomClick false 0 "u" "f" none = none ∧
    handleInput false 0 "u" "f" none = none ∧
    handleSelectChange false 0 "u" "f" none = none ∧
    handleKeydown false 0 "u" "f" ⟨"Enter", false, false⟩ none = none ∧
    (stopRecorder { initState with stopRecording := true }).isRecordingActive
      = false ∧
    (timerFire { initState with
                 isRecordingActive := false,
                 scrollTimeout := some (.rrweb (.other 1)) }).2 =
      [.rrweb (.other 1)] :=
  ⟨C7_stop_suppression.1 _ _ rfl,
   C7_stop_suppression.2.1 0 "u" "f" none,
   C7_stop_suppression.2.2.1 0 "u" "f" none,
   C7_stop_suppression.2.2.2.1 0 "u" "f" none,
   C7_stop_suppression.2.2.2.2.1 0 "u" "f" ⟨"Enter", false, false⟩ none,
   C7_stop_suppression.2.2.2.2.2.1 _ rfl,
   C7_stop_suppression.2.2.2.2.2.2 _ (.rrweb (.other 1)) rfl rfl⟩

/-- C8 counterexample: the initial state — reachable via the empty command
sequence, before any command is processed — has `isRecordingActive = true`
while the stop handle is absent, so the claimed invariant fails there. -/
theorem C8_initial_state_counterexample :
    (run initState []).1 = initState ∧ ¬ sessionInvariant initState :=
  ⟨rfl, by decide⟩

/-- The states reachable before the first successful start: no stop handle,
engine not recording, but the active flag still at its initial `true`. -/
def preStart (s : RecState) : Prop :=
  s.stopRecording = false ∧ s.isRecordingActive = true ∧
    s.engineRecording = false

/-- The emit callback never touches the lifecycle fields. -/
theorem emitStep_lifecycle (s : RecState) (e : RREvent) :
    (emitStep s e).1.stopRecording = s.stopRecording ∧
    (emitStep s e).1.isRecordingActive = s.isRecordingActive ∧
    (emitStep s e).1.engineRecording = s.engineRecording := by
  unfold emitStep
  split
  · exact ⟨rfl, rfl, rfl⟩
  · cases e with
    | other p => exact ⟨rfl, rfl, rfl⟩
    | scroll i x y =>
        dsimp only
        split
        · exact ⟨rfl, rfl, rfl⟩
        · exact ⟨rfl, rfl, rfl⟩

/-- Nor does the debounce timer callback. -/
theorem timerFire_lifecycle (s : RecState) :
    (timerFire s).1.stopRecording = s.stopRecording ∧
    (timerFire s).1.isRecordingActive = s.isRecordingActive ∧
    (timerFire s).1.engineRecording = s.engineRecording := by
  unfold timerFire
  split
  · exact ⟨rfl, rfl, rfl⟩
  · exact ⟨rfl, rfl, rfl⟩

/-- Each step preserves "the invariant holds, or the first start has not yet
happened". -/
theorem step_preserves_inv (s : RecState) (a : RecAction)
    (h : sessionInvariant s ∨ preStart s) :
    sessionInvariant (step s a).1 ∨ preStart (step s a).1 := by
  have hstart : sessionInvariant (startRecorder s) ∨ preStart (startRecorder s) := by
    unfold startRecorder
    by_cases hs : s.stopRecording = true
    · simpa [hs] using h
    · left
      simp [hs, sessionInvariant]
  have hstop : sessionInvariant (stopRecorder s) ∨ preStart (stopRecorder s) := by
    unfold stopRecorder
    by_cases hs : s.stopRecording = true
    · left
      simp [hs, sessionInvariant]
    · simpa [hs] using h
  cases a with
  | emit e =>
      obtain ⟨h1, h2, h3⟩ := emitStep_lifecycle s e
      simp only [step, sessionInvariant, preStart, h1, h2, h3]
      simpa [sessionInvariant, preStart] using h
  | timer =>
      obtain ⟨h1, h2, h3⟩ := timerFire_lifecycle s
      simp only [step, sessionInvariant, preStart, h1, h2, h3]
      simpa [sessionInvariant, preStart] using h
  | start => exact hstart
  | stop => exact hstop
  | setStatus b =>
      dsimp only [step, setRecordingStatus]
      split
      · exact hstart
      · split
        · exact hstop
        · exact h
  | statusResp b =>
      dsimp only [step, statusResponse]
      split
      · exact hstart
      · exact hstop
  | unload => exact hstop

/-- Runs from a good-or-prestart state stay good-or-prestart. -/
theorem run_preserves_inv (as : List RecAction) (s : RecState)
    (h : sessionInvariant s ∨ preStart s) :
    sessionInvariant (run s as).1 ∨ preStart (run s as).1 := by
  induction as generalizing s with
  | nil => simpa [run] using h
  | cons a as ih =>
      simpa [run] using ih (step s a).1 (step_preserves_inv s a h)

/-- C8 amended: in every state reachable from program load via start, stop,
SET_RECORDING_STATUS commands, the initial status query, emissions and timer
fires, either the RecordingSession invariant holds (stop handle present iff
the engine records, and iff `isRecordingActive`), or the run has not passed
through a successful start yet — in which case, as in the initial state
itself, `isRecordingActive` is `true` while the stop handle is absent,
violating the invariant. -/
theorem C8_invariant_reachable (as : List RecAction) :
    sessionInvariant (run initState as).1 ∨ preStart (run initState as).1 :=
  run_preserves_inv as initState (Or.inr ⟨rfl, rfl, rfl⟩)

/-- C9 counterexample: after down-scrolls to y=10 and y=20 (the second
buffered in the timer), a reversing scroll to y=15 flushes immediately — but
the emitted event carries the reversal-triggering event's own rounded
coordinates (y=15), not the buffered pre-reversal coordinates (y=20), and
direction tracking is set to the new direction rather than reset. -/
theorem C9_reversal_counterexample :
    (run initState [.start, .emit (.scroll 1 0 10), .emit (.scroll 1 0 20),
        .emit (.scroll 1 0 15)]).2 = [.rrwebScroll 1 0 15] ∧
    (run initState [.start, .emit (.scroll 1 0 10), .emit (.scroll 1 0 20),
        .emit (.scroll 1 0 15)]).1.lastDirection = some Dir.up := by
  have h := jsRound_vals
  norm_num [run, step, emitStep, startRecorder, initState,
    h.1, h.2.1, h.2.2.1, h.2.2.2]
  simp

/-- C9 amended: while recording, scroll coordinates are rounded; two rapid
same-direction scrolls within the quiet period coalesce into one emission
carrying the latest buffered rounded coordinates; a direction reversal
cancels any pending debounce timer and flushes immediately — with the
reversal-triggering event's own rounded coordinates, setting direction
tracking to the new direction (not the buffered pre-reversal coordinates,
and not a reset); non-scroll events pass through unmodified. -/
theorem C9_scroll_smoothing :
    (∀ (s : RecState) (i : Nat) (x y ly : ℚ) (ld : Dir),
      s.isRecordingActive = true → s.lastScrollY = some ly →
      s.lastDirection = some ld →
      (if y > ly then Dir.down else Dir.up) ≠ ld →
      emitStep s (.scroll i x y) =
        ({ s with scrollTimeout := none,
                  lastDirection := some (if y > ly then Dir.down else Dir.up),
                  lastScrollY := some y },
         [.rrwebScroll i (jsRound x) (jsRound y)])) ∧
    (∀ (s : RecState) (i1 i2 : Nat) (x1 y1 x2 y2 : ℚ),
      s.isRecordingActive = true → s.lastScrollY = none →
      s.lastDirection = none → y2 > y1 →
      (run s [.emit (.scroll i1 x1 y1), .emit (.scroll i2 x2 y2),
          .timer]).2 =
        [.rrwebScroll i2 (jsRound x2) (jsRound y2)]) ∧
    (∀ (s : RecState) (p : Nat), s.isRecordingActive = true →
      emitStep s (.other p) = (s, [.rrweb (.other p)])) := by
  refine ⟨?_, ?_, ?_⟩
  · intro s i x y ly ld hact hly hld hrev
    simp [emitStep, hact, hly, hld, hrev, bne_iff_ne]
  · intro s i1 i2 x1 y1 x2 y2 hact hly hld hgt
    simp [run, step, emitStep, timerFire, hact, hly, hld]
  · intro s p hact
    simp [emitStep, hact]

/-- The recording state right after a start, with no scroll history. -/
def freshRecording : RecState :=
  { stopRecording := true, isRecordingActive := true, scrollTimeout := none,
    lastScrollY := none, lastDirection := none, engineRecording := true }

/-- A recording state with a buffered down-scroll to y=20 pending in the
debounce timer. -/
def bufferedDown : RecState :=
  { stopRecording := true, isRecordingActive := true,
    scrollTimeout := some (.rrwebScroll 1 0 20), lastScrollY := some 20,
    lastDirection := some Dir.down, engineRecording := true }

/-- Witness for C9: a concrete reversal flush, a concrete coalesced pair of
same-direction scrolls, and a concrete pass-through. -/
theorem C9_scroll_smoothing_witness :
    emitStep bufferedDown (.scroll 1 0 15) =
      ({ bufferedDown with
         scrollTimeout := none,
         lastDirection := some (if (15 : ℚ) > 20 then Dir.down else Dir.up),
         lastScrollY := some 15 },
       [.rrwebScroll 1 (jsRound 0) (jsRound 15)]) ∧
    (run freshRecording [.emit (.scroll 1 0 10), .emit (.scroll 2 0 20),
        .timer]).2 = [.rrwebScroll 2 (jsRound 0) (jsRound 20)] ∧
    emitStep freshRecording (.other 7) =
      (freshRecording, [.rrweb (.other 7)]) :=
  ⟨C9_scroll_smoothing.1 bufferedDown 1 0 15 20 Dir.down rfl rfl rfl
     (by rw [if_neg (by norm_num)]; exact fun hc => Dir.noConfusion hc),
   C9_scroll_smoothing.2.1 freshRecording 1 2 0 10 0 20 rfl rfl rfl
     (by norm_num),
   C9_scroll_smoothing.2.2 freshRecording 7 rfl⟩

/-- C10 counterexample: in the keydown handler, an exception inside the
locator `try` block is swallowed, but the event is not dropped — the
CUSTOM_KEY_EVENT message is still sent, with the locator fields left at
their defaults — contradicting the claim that any locator-computation
exception drops the event for every handler. -/
theorem C10_keydown_counterexample :
    handleKeydownTry true 0 "u" "f" ⟨"Enter", false, false⟩
        (some (.mk ⟨"", "DIV", [], []⟩ false [] none))
        (.error ()) (.error ()) =
      some { timestamp := 0, url := "u", frameUrl := "f", key := "Enter",
             xpath := "", cssSelector := "", elementTag := "document" } ∧
    handleKeydownTry true 0 "u" "f" ⟨"Enter", false, false⟩
        (some (.mk ⟨"", "DIV", [], []⟩ false [] none))
        (.error ()) (.error ()) ≠ none := by
  constructor <;> decide

/-- C10 amended: the click, input and select-change handlers swallow a
locator-computation exception and drop the event (no message, no
propagation); the keydown handler also swallows the exception but still
sends its message, with empty locator fields and the `"document"` tag
placeholder. -/
theorem C10_failure_boundary :
    (∀ (active : Bool) (now : Nat) (url furl : String)
        (target : Option ClickTarget),
      handleCustomClickTry active now url furl target (.error ()) = none) ∧
    (∀ (active : Bool) (now : Nat) (url furl : String)
        (target : Option InputTarget),
      handleInputTry active now url furl target (.error ()) = none) ∧
    (∀ (active : Bool) (now : Nat) (url furl : String)
        (target : Option SelectTarget),
      handleSelectChangeTry active now url furl target (.error ()) = none) ∧
    (∀ (now : Nat) (url furl : String) (ev : KeyEvent) (n : XNode)
        (locC : Except Unit String), ev.key ∈ CAPTURED_KEYS →
      handleKeydownTry true now url furl ev (some n) (.error ()) locC =
        some { timestamp := now, url := url, frameUrl := furl, key := ev.key,
               xpath := "", cssSelector := "", elementTag := "document" }) := by
  refine ⟨?_, ?_, ?_, ?_⟩
  · intro active now url furl target
    cases target <;> simp [handleCustomClickTry]
  · intro active now url furl target
    cases target <;> simp [handleInputTry]
  · intro active now url furl target
    cases target <;> simp [handleSelectChangeTry]
  · intro now url furl ev n locC h
    have hne : ev.key ≠ "" := captured_key_ne_empty ev.key h
    cases locC <;> simp [handleKeydownTry, h, hne]

/-- Witness for C10 at concrete targets and a concrete captured key. -/
theorem C10_failure_boundary_witness :
    handleCustomClickTry true 0 "u" "f"
        (some ⟨.mk ⟨"", "DIV", [], []⟩ false [] none, "text"⟩) (.error ()) =
      none ∧
    handleInputTry true 0 "u" "f" (some pwTarget) (.error ()) = none ∧
    handleSelectChangeTry true 0 "u" "f"
        (some ⟨.mk ⟨"", "SELECT", [], []⟩ false [] none, "v", some "V"⟩)
        (.error ()) = none ∧
    handleKeydownTry true 0 "u" "f" ⟨"Tab", false, false⟩
        (some (.mk ⟨"", "DIV", [], []⟩ false [] none))
        (.error ()) (.error ()) =
      some { timestamp := 0, url := "u", frameUrl := "f", key := "Tab",
             xpath := "", cssSelector := "", elementTag := "document" } :=
  ⟨C10_failure_boundary.1 true 0 "u" "f"
     (some ⟨.mk ⟨"", "DIV", [], []⟩ false [] none, "text"⟩),
   C10_failure_boundary.2.1 true 0 "u" "f" (some pwTarget),
   C10_failure_boundary.2.2.1 true 0 "u" "f"
     (some ⟨.mk ⟨"", "SELECT", [], []⟩ false [] none, "v", some "V"⟩),
   C10_failure_boundary.2.2.2 0 "u" "f" ⟨"Tab", false, false⟩
     (.mk ⟨"", "DIV", [], []⟩ false [] none) (.error ()) (by decide)⟩
